import Mathlib

/-!
Verification of the FusionAuth webhook receiver
(`src/fusionauth/assets/webhook-handler.ts`).

The development shallowly embeds the three pieces of the handler:

* `verifyWebhookSignature` — HMAC-SHA256 over the raw body, `sha256=`-prefixed
  lowercase hex, compared with a length guard and a constant-time equality
  (Node's `crypto.timingSafeEqual`, which throws on unequal-length buffers),
  the whole body wrapped in a `try/catch` that yields `false`.
* `dispatchEvent` — the switch on the event's `type` discriminator routing to
  one of nine handlers, with a log-only default case.
* `fusionAuthWebhookRouter` — the Express POST route: optional signature
  check (skipped when no secret is configured), JSON parse, truthiness check
  on `payload?.event?.type`, `res.sendStatus(200)` before dispatch, and the
  `try/catch` around the dispatched handler.

Buffers are `List Nat` of byte values; 32-bit words are `Nat` reduced
`% 4294967296` wherever overflow matters.  The router is embedded as a pure
function from the request's parts to the ordered list of its observable
actions (responses written, handlers started, log lines), which makes the
ordering and error-containment claims statable.
-/

namespace Webhook

/-! Words: 32-bit arithmetic helpers. -/

/-- Truncate to a 32-bit word. -/
def w32 (n : Nat) : Nat := n % 4294967296

/-- Addition modulo 2^32. -/
def add32 (a b : Nat) : Nat := (a + b) % 4294967296

/-- Right rotation of a 32-bit word (argument assumed < 2^32; result truncated). -/
def rotr32 (n x : Nat) : Nat := ((x >>> n) ||| (x <<< (32 - n))) % 4294967296

/-- SHA-256 Σ₀. -/
def sumZero (x : Nat) : Nat := rotr32 2 x ^^^ rotr32 13 x ^^^ rotr32 22 x

/-- SHA-256 Σ₁. -/
def sumOne (x : Nat) : Nat := rotr32 6 x ^^^ rotr32 11 x ^^^ rotr32 25 x

/-- SHA-256 σ₀. -/
def sigZero (x : Nat) : Nat := rotr32 7 x ^^^ rotr32 18 x ^^^ (x >>> 3)

/-- SHA-256 σ₁. -/
def sigOne (x : Nat) : Nat := rotr32 17 x ^^^ rotr32 19 x ^^^ (x >>> 10)

/-- SHA-256 choice function (¬x within 32 bits is x ^^^ 0xFFFFFFFF). -/
def chFn (x y z : Nat) : Nat := (x &&& y) ^^^ ((x ^^^ 4294967295) &&& z)

/-- SHA-256 majority function. -/
def majFn (x y z : Nat) : Nat := (x &&& y) ^^^ (x &&& z) ^^^ (y &&& z)

/-! Hashing: SHA-256 (FIPS 180-4), the hash that `crypto.createHmac` keys. -/

/-- The 64 SHA-256 round constants. -/
def shaK : List Nat :=
  [1116352408, 1899447441, 3049323471, 3921009573, 961987163,
   1508970993, 2453635748, 2870763221, 3624381080, 310598401,
   607225278, 1426881987, 1925078388, 2162078206, 2614888103,
   3248222580, 3835390401, 4022224774, 264347078, 604807628,
   770255983, 1249150122, 1555081692, 1996064986, 2554220882,
   2821834349, 2952996808, 3210313671, 3336571891, 3584528711,
   113926993, 338241895, 666307205, 773529912, 1294757372,
   1396182291, 1695183700, 1986661051, 2177026350, 2456956037,
   2730485921, 2820302411, 3259730800, 3345764771, 3516065817,
   3600352804, 4094571909, 275423344, 430227734, 506948616,
   659060556, 883997877, 958139571, 1322822218, 1537002063,
   1747873779, 1955562222, 2024104815, 2227730452, 2361852424,
   2428436474, 2756734187, 3204031479, 3329325298]

/-- The initial SHA-256 state. -/
def shaH0 : List Nat :=
  [1779033703, 3144134277, 1013904242, 2773480762,
   1359893119, 2600822924, 528734635, 1541459225]

/-- Big-endian 8-byte encoding of a (bit-)length. -/
def lenBytes64 (n : Nat) : List Nat :=
  (List.range 8).map (fun i => (n >>> ((7 - i) * 8)) % 256)

/-- SHA-256 padding: append `0x80`, zeros to 56 mod 64, then the bit length. -/
def padMessage (msg : List Nat) : List Nat :=
  let zeros := (64 + 55 - msg.length % 64) % 64
  msg ++ 128 :: List.replicate zeros 0 ++ lenBytes64 (msg.length * 8)

/-- Group bytes into big-endian 32-bit words. -/
def toWords : List Nat → List Nat
  | b0 :: b1 :: b2 :: b3 :: rest =>
      (((b0 * 256 + b1) * 256 + b2) * 256 + b3) :: toWords rest
  | _ => []

/-- Split a byte list into 64-byte blocks (structural recursion on a fuel
bound so the kernel can evaluate it; `fuel = l.length` always suffices since
every step consumes at least one element). -/
def chunks64Go : Nat → List Nat → List (List Nat)
  | 0, _ => []
  | _, [] => []
  | fuel + 1, l => l.take 64 :: chunks64Go fuel (l.drop 64)

/-- Split a byte list into 64-byte blocks. -/
def chunks64 (l : List Nat) : List (List Nat) := chunks64Go l.length l

/-- Extend a 16-word message schedule by `n` further words. -/
def extendSchedule : List Nat → Nat → List Nat
  | ws, 0 => ws
  | ws, n + 1 =>
      let i := ws.length
      let next := add32 (add32 (sigOne (ws.getD (i - 2) 0)) (ws.getD (i - 7) 0))
                        (add32 (sigZero (ws.getD (i - 15) 0)) (ws.getD (i - 16) 0))
      extendSchedule (ws ++ [next]) n

/-- The eight SHA-256 working registers. -/
structure Regs where
  a : Nat
  b : Nat
  c : Nat
  d : Nat
  e : Nat
  f : Nat
  g : Nat
  h : Nat

/-- One SHA-256 round; `kw` pairs the round constant with the schedule word. -/
def roundStep (r : Regs) (kw : Nat × Nat) : Regs :=
  let t1 := add32 r.h (add32 (sumOne r.e) (add32 (chFn r.e r.f r.g) (add32 kw.1 kw.2)))
  let t2 := add32 (sumZero r.a) (majFn r.a r.b r.c)
  ⟨add32 t1 t2, r.a, r.b, r.c, add32 r.d t1, r.e, r.f, r.g⟩

/-- Compress one 64-byte block into the state. -/
def compressBlock (state : List Nat) (block : List Nat) : List Nat :=
  let w := extendSchedule (toWords block) 48
  let init : Regs :=
    ⟨state.getD 0 0, state.getD 1 0, state.getD 2 0, state.getD 3 0,
     state.getD 4 0, state.getD 5 0, state.getD 6 0, state.getD 7 0⟩
  let r := (shaK.zip w).foldl roundStep init
  [add32 (state.getD 0 0) r.a, add32 (state.getD 1 0) r.b,
   add32 (state.getD 2 0) r.c, add32 (state.getD 3 0) r.d,
   add32 (state.getD 4 0) r.e, add32 (state.getD 5 0) r.f,
   add32 (state.getD 6 0) r.g, add32 (state.getD 7 0) r.h]

/-- Big-endian bytes of a 32-bit word. -/
def wordBytes (w : Nat) : List Nat :=
  [(w >>> 24) % 256, (w >>> 16) % 256, (w >>> 8) % 256, w % 256]

/-- SHA-256 digest (32 bytes) of a byte sequence. -/
def sha256 (msg : List Nat) : List Nat :=
  (((chunks64 (padMessage msg)).foldl compressBlock shaH0).map wordBytes).flatten

/-- HMAC-SHA256 (RFC 2104) with a 64-byte block size. -/
def hmacSha256 (key msg : List Nat) : List Nat :=
  let k0 := if 64 < key.length then sha256 key else key
  let kp := k0 ++ List.replicate (64 - k0.length) 0
  let ipadKey := kp.map (fun b => b ^^^ 54)
  let opadKey := kp.map (fun b => b ^^^ 92)
  sha256 (opadKey ++ sha256 (ipadKey ++ msg))

/-! Encodings: hex and UTF-8. -/

/-- Lowercase hex digit for a nibble. -/
def hexDigitChar (n : Nat) : Char :=
  if n < 10 then Char.ofNat (48 + n) else Char.ofNat (87 + n)

/-- Lowercase hex string of a byte sequence (`digest('hex')`). -/
def bytesToHex (bs : List Nat) : String :=
  String.mk ((bs.map (fun b => [hexDigitChar (b / 16), hexDigitChar (b % 16)])).flatten)

/-- UTF-8 encoding of a code point. -/
def utf8Encode (c : Nat) : List Nat :=
  if c < 128 then [c]
  else if c < 2048 then [192 + c / 64, 128 + c % 64]
  else if c < 65536 then [224 + c / 4096, 128 + (c / 64) % 64, 128 + c % 64]
  else [240 + c / 262144, 128 + (c / 4096) % 64, 128 + (c / 64) % 64, 128 + c % 64]

/-- The bytes of a string (`Buffer.from(s)`, UTF-8). -/
def strBytes (s : String) : List Nat :=
  (s.data.map (fun ch => utf8Encode ch.toNat)).flatten

/-- The string `crypto.createHmac('sha256', secret).update(rawBody).digest('hex')`. -/
def hmacSha256Hex (secret : String) (rawBody : List Nat) : String :=
  bytesToHex (hmacSha256 (strBytes secret) rawBody)

/-! Comparison: `crypto.timingSafeEqual`.

Node's documented contract: the two buffers must have the same length
(otherwise the call throws `ERR_CRYPTO_TIMING_SAFE_EQUAL_LENGTH`); equality is
computed like `CRYPTO_memcmp`, XOR-accumulating over *every* byte pair with no
early exit.  The accumulator pass is embedded with an explicit step counter so
that the constant-time shape of the comparison is statable. -/

/-- XOR-accumulate over the paired bytes; the second component counts the
byte comparisons performed (one per pair, never fewer). -/
def ctEqAux : List Nat → List Nat → Nat → Nat × Nat
  | [], _, acc => (acc, 0)
  | _ :: _, [], acc => (acc, 0)
  | x :: xs, y :: ys, acc =>
      let r := ctEqAux xs ys (acc ||| (x ^^^ y))
      (r.1, r.2 + 1)

/-- Number of byte comparisons the constant-time loop performs. -/
def ctCost (a b : List Nat) : Nat := (ctEqAux a b 0).2

/-- The call `crypto.timingSafeEqual(a, b)`: throws on unequal lengths, else compares
all bytes in constant time. -/
def timingSafeEqual (a b : List Nat) : Except String Bool :=
  if a.length = b.length then .ok ((ctEqAux a b 0).1 == 0)
  else .error "ERR_CRYPTO_TIMING_SAFE_EQUAL_LENGTH"

/-! Verifier: `verifyWebhookSignature`. -/

/-- The body of `verifyWebhookSignature` before its `try/catch`: compute the
expected `sha256=`-prefixed digest, guard on buffer lengths, then call
`crypto.timingSafeEqual`.  An `.error` is an exception escaping to the catch. -/
def verifyWebhookSignatureBody (rawBody : List Nat) (signatureHeader secret : String) :
    Except String Bool :=
  let expected := "sha256=" ++ hmacSha256Hex secret rawBody
  let a := strBytes signatureHeader
  let b := strBytes expected
  if a.length ≠ b.length then .ok false
  else timingSafeEqual a b

/-- The function `verifyWebhookSignature(rawBody, signatureHeader, secret)`: the body
wrapped in `try { … } catch { return false }`. -/
def verifyWebhookSignature (rawBody : List Nat) (signatureHeader secret : String) : Bool :=
  match verifyWebhookSignatureBody rawBody signatureHeader secret with
  | .ok v => v
  | .error _ => false

/-! Dispatch: the event router. -/

/-- The nine concrete handler functions of the source file. -/
inductive Handler where
  | onUserCreate
  | onUserUpdate
  | onUserDelete
  | onLoginSuccess
  | onLoginFailed
  | onRegistrationCreate
  | onRefreshTokenRevoke
  | onPasswordBreach
  | onPasswordReset
deriving DecidableEq, Repr

/-- The `switch (event.type)` of `dispatchEvent`: which handler each
discriminator reaches; `none` is the logging `default` case. -/
def handlerFor (t : String) : Option Handler :=
  match t with
  | "user.create" => some .onUserCreate
  | "user.update" => some .onUserUpdate
  | "user.delete" => some .onUserDelete
  | "user.deactivate" => some .onUserDelete
  | "user.login.success" => some .onLoginSuccess
  | "user.login.failed" => some .onLoginFailed
  | "user.registration.create" => some .onRegistrationCreate
  | "jwt.refresh-token.revoke" => some .onRefreshTokenRevoke
  | "user.password.breach" => some .onPasswordBreach
  | "user.password.reset.success" => some .onPasswordReset
  | _ => none

/-- The parsed `event` object, as far as the router inspects it:
`type` (absent/null modelled as `none`) and `id` (used in the default-case
log line). -/
structure ParsedEvent where
  type : Option String
  id : String
deriving DecidableEq, Repr

/-- The parsed request body: `payload?.event` (`none` when the parsed value
is not an object carrying an `event` field). -/
structure ParsedPayload where
  event : Option ParsedEvent
deriving DecidableEq, Repr

/-- Observable actions of the route handler, in execution order. -/
inductive Action where
  | logWarn (msg : String)
  | compareSig (sig : String)
  | respond (status : Nat)
  | handlerRun (h : Handler)
  | logUnhandled (t : String) (id : String)
  | logHandlerError (t : String)
deriving DecidableEq, Repr

/-- What a handler invocation does when it runs: finishes normally or
throws.  The source handlers only log, but their behaviour is kept abstract
so containment of handler failures is statable. -/
def HandlerBehavior : Type := Handler → Except String Unit

/-- The function `dispatchEvent(event)`: runs the matched handler (the `default` case only
logs).  Returns the actions performed and the exception, if any, escaping to
the router's `try/catch`. -/
def dispatchEvent (behavior : HandlerBehavior) (t : String) (eid : String) :
    List Action × Option String :=
  match handlerFor t with
  | some h =>
      ([.handlerRun h],
       match behavior h with
       | .ok _ => none
       | .error e => some e)
  | none => ([.logUnhandled t eid], none)

/-! Route: the Express POST handler. -/

/-- The JS truthiness test `!event?.type` (negated): `event` must be present
and its `type` a non-empty string. -/
def eventTruthy : Option ParsedEvent → Bool
  | none => false
  | some ev =>
      match ev.type with
      | none => false
      | some t => !(t == "")

/-- Steps 2–3 of the route handler (after the signature gate): `JSON.parse`
on the raw body, the `!event?.type` check, `res.sendStatus(200)`, then the
dispatched handler inside `try/catch`.  `parseJson` stands for the runtime's
JSON parser applied to the body bytes (`none` = `JSON.parse` threw). -/
def processBody (parseJson : List Nat → Option ParsedPayload) (body : List Nat)
    (behavior : HandlerBehavior) : List Action :=
  match parseJson body with
  | none => [.respond 400]
  | some payload =>
      match payload.event with
      | none => [.respond 400]
      | some ev =>
          match ev.type with
          | none => [.respond 400]
          | some t =>
              if t == "" then [.respond 400]
              else
                let d := dispatchEvent behavior t ev.id
                .respond 200 :: d.1 ++
                  (match d.2 with
                   | some _ => [.logHandlerError t]
                   | none => [])

/-- The POST route of `fusionAuthWebhookRouter`, as the ordered list of its
observable actions.  `secret?` is `process.env.FUSIONAUTH_WEBHOOK_SECRET`
(`if (webhookSecret)` is JS truthiness, so an empty string also skips the
check); `sigHeader?` is the `x-fusionauth-signature` header (`if (!signature)`
likewise treats an empty header as missing). -/
def fusionAuthWebhookRouter (secret? : Option String) (body : List Nat)
    (sigHeader? : Option String) (parseJson : List Nat → Option ParsedPayload)
    (behavior : HandlerBehavior) : List Action :=
  let next := processBody parseJson body behavior
  match secret? with
  | none => next
  | some ws =>
      if ws == "" then next
      else
        match sigHeader? with
        | none => [.logWarn "Webhook received without signature header", .respond 401]
        | some sig =>
            if sig == "" then
              [.logWarn "Webhook received without signature header", .respond 401]
            else if !(verifyWebhookSignature body sig ws) then
              [.compareSig sig, .logWarn "Webhook signature verification failed",
               .respond 401]
            else
              .compareSig sig :: next

/-! Observations over traces. -/

/-- The statuses written to the response, in order. -/
def respondsOf (tr : List Action) : List Nat :=
  tr.filterMap fun a =>
    match a with
    | .respond n => some n
    | _ => none

/-- The concrete handlers started, in order. -/
def handlerRunsOf (tr : List Action) : List Handler :=
  tr.filterMap fun a =>
    match a with
    | .handlerRun h => some h
    | _ => none

/-- Number of default-case (unknown discriminator) log lines. -/
def unhandledCount (tr : List Action) : Nat :=
  (tr.filter fun a =>
    match a with
    | .logUnhandled _ _ => true
    | _ => false).length

/-- The request is rejected at the signature gate: a secret is configured and
the header is missing, empty, or fails verification. -/
def sigCheckFails (secret? : Option String) (body : List Nat)
    (sigHeader? : Option String) : Bool :=
  match secret? with
  | none => false
  | some ws =>
      if ws == "" then false
      else
        match sigHeader? with
        | none => true
        | some sig =>
            if sig == "" then true
            else !(verifyWebhookSignature body sig ws)

/-- The body is structurally invalid: `JSON.parse` throws, or the
`!event?.type` truthiness check fails. -/
def malformedBody (parseJson : List Nat → Option ParsedPayload)
    (body : List Nat) : Bool :=
  match parseJson body with
  | none => true
  | some payload => !(eventTruthy payload.event)

/-- The status the response contract assigns to a request. -/
def expectedStatus (secret? : Option String) (body : List Nat)
    (sigHeader? : Option String) (parseJson : List Nat → Option ParsedPayload) : Nat :=
  if sigCheckFails secret? body sigHeader? then 401
  else if malformedBody parseJson body then 400
  else 200

/-! Lemmas on the constant-time comparison. -/

theorem lor_eq_zero_iff (m n : Nat) : m ||| n = 0 ↔ m = 0 ∧ n = 0 := by
  constructor
  · intro h
    constructor
    · apply Nat.eq_of_testBit_eq
      intro i
      have h2 := congrArg (fun x => Nat.testBit x i) h
      simp [Nat.testBit_lor] at h2
      simp [h2.1, Nat.zero_testBit]
    · apply Nat.eq_of_testBit_eq
      intro i
      have h2 := congrArg (fun x => Nat.testBit x i) h
      simp [Nat.testBit_lor] at h2
      simp [h2.2, Nat.zero_testBit]
  · rintro ⟨rfl, rfl⟩
    rfl

theorem ctEqAux_fst_self (a : List Nat) (acc : Nat) : (ctEqAux a a acc).1 = acc := by
  induction a generalizing acc with
  | nil => rfl
  | cons x xs ih =>
      show (ctEqAux xs xs (acc ||| (x ^^^ x))).1 = acc
      rw [Nat.xor_self, Nat.or_zero]
      exact ih acc

theorem ctEqAux_fst_zero_iff (a : List Nat) : ∀ (b : List Nat) (acc : Nat),
    a.length = b.length → ((ctEqAux a b acc).1 = 0 ↔ acc = 0 ∧ a = b) := by
  induction a with
  | nil =>
      intro b acc hlen
      cases b with
      | nil => simp [ctEqAux]
      | cons y ys => simp at hlen
  | cons x xs ih =>
      intro b acc hlen
      cases b with
      | nil => simp at hlen
      | cons y ys =>
          show (ctEqAux xs ys (acc ||| (x ^^^ y))).1 = 0 ↔ _
          rw [ih ys (acc ||| (x ^^^ y)) (by simpa using hlen)]
          rw [lor_eq_zero_iff, Nat.xor_eq_zero]
          simp only [List.cons.injEq]
          tauto

theorem ctEqAux_snd (a : List Nat) : ∀ (b : List Nat) (acc : Nat),
    (ctEqAux a b acc).2 = min a.length b.length := by
  induction a with
  | nil =>
      intro b acc
      cases b <;> simp [ctEqAux]
  | cons x xs ih =>
      intro b acc
      cases b with
      | nil => simp [ctEqAux]
      | cons y ys =>
          show (ctEqAux xs ys (acc ||| (x ^^^ y))).2 + 1 = _
          rw [ih ys]
          simp [Nat.succ_min_succ]

theorem timingSafeEqual_eq (a b : List Nat) (hlen : a.length = b.length) :
    timingSafeEqual a b = .ok (decide (a = b)) := by
  unfold timingSafeEqual
  rw [if_pos hlen]
  congr 1
  by_cases h : a = b
  · subst h
    simp [ctEqAux_fst_self]
  · have hne : (ctEqAux a b 0).1 ≠ 0 := by
      rw [Ne, ctEqAux_fst_zero_iff a b 0 hlen]
      tauto
    simp [h, hne]

/-! Lemmas presenting `verifyWebhookSignature` as a plain equality test. -/

theorem verify_eq_decide (rawBody : List Nat) (hdr s : String) :
    verifyWebhookSignature rawBody hdr s =
      decide (strBytes hdr = strBytes ("sha256=" ++ hmacSha256Hex s rawBody)) := by
  unfold verifyWebhookSignature verifyWebhookSignatureBody
  by_cases hlen :
      (strBytes hdr).length = (strBytes ("sha256=" ++ hmacSha256Hex s rawBody)).length
  · rw [if_neg (by simp [hlen]), timingSafeEqual_eq _ _ hlen]
  · rw [if_pos (by simpa using hlen)]
    have : strBytes hdr ≠ strBytes ("sha256=" ++ hmacSha256Hex s rawBody) := by
      intro h
      exact hlen (by rw [h])
    simp [this]

/-! Lemmas showing digest strings are ASCII, where the byte encoding is injective. -/

theorem hexDigitChar_lt : ∀ n < 16, (hexDigitChar n).toNat < 128 := by decide

theorem bytesToHex_ascii (bs : List Nat) (hb : ∀ b ∈ bs, b < 256) :
    ∀ c ∈ (bytesToHex bs).data, c.toNat < 128 := by
  intro c hc
  unfold bytesToHex at hc
  simp only [String.data] at hc
  simp only [List.mem_flatten, List.mem_map] at hc
  obtain ⟨l, ⟨b, hbmem, rfl⟩, hcl⟩ := hc
  have hb' := hb b hbmem
  simp only [List.mem_cons, List.mem_singleton] at hcl
  rcases hcl with rfl | rfl | hfalse
  · exact hexDigitChar_lt (b / 16) (by omega)
  · exact hexDigitChar_lt (b % 16) (by omega)
  · exact absurd hfalse (by simp)

theorem sha256_bytes_lt (msg : List Nat) : ∀ b ∈ sha256 msg, b < 256 := by
  intro b hb
  unfold sha256 at hb
  simp only [List.mem_flatten, List.mem_map] at hb
  obtain ⟨l, ⟨w, _, rfl⟩, hbl⟩ := hb
  unfold wordBytes at hbl
  simp only [List.mem_cons, List.mem_singleton] at hbl
  rcases hbl with rfl | rfl | rfl | rfl | hfalse
  · omega
  · omega
  · omega
  · omega
  · exact absurd hfalse (by simp)

theorem hmacSha256_bytes_lt (key msg : List Nat) : ∀ b ∈ hmacSha256 key msg, b < 256 :=
  fun b hb => sha256_bytes_lt _ b hb

theorem hmacSha256Hex_ascii (s : String) (rawBody : List Nat) :
    ∀ c ∈ (hmacSha256Hex s rawBody).data, c.toNat < 128 :=
  fun c hc => bytesToHex_ascii _ (hmacSha256_bytes_lt _ _) c hc

theorem utf8_flatten_ascii (l : List Char) (hl : ∀ c ∈ l, c.toNat < 128) :
    (l.map (fun ch => utf8Encode ch.toNat)).flatten = l.map Char.toNat := by
  induction l with
  | nil => rfl
  | cons c cs ih =>
      simp only [List.map_cons, List.flatten_cons]
      rw [utf8Encode, if_pos (hl c (by simp))]
      rw [ih (fun d hd => hl d (by simp [hd]))]
      rfl

theorem strBytes_ascii (s : String) (hs : ∀ c ∈ s.data, c.toNat < 128) :
    strBytes s = s.data.map Char.toNat :=
  utf8_flatten_ascii s.data hs

theorem map_toNat_inj (l1 : List Char) : ∀ l2 : List Char,
    l1.map Char.toNat = l2.map Char.toNat → l1 = l2 := by
  induction l1 with
  | nil =>
      intro l2 h
      cases l2 with
      | nil => rfl
      | cons b bs => simp at h
  | cons a as ih =>
      intro l2 h
      cases l2 with
      | nil => simp at h
      | cons b bs =>
          simp only [List.map_cons, List.cons.injEq] at h
          rw [Char.ext (UInt32.ext h.1), ih bs h.2]

theorem strBytes_append (s t : String) : strBytes (s ++ t) = strBytes s ++ strBytes t := by
  unfold strBytes
  show ((s.data ++ t.data).map _).flatten = _
  rw [List.map_append, List.flatten_append]

theorem hmacHex_strBytes_inj (rawBody : List Nat) (s s' : String)
    (h : strBytes ("sha256=" ++ hmacSha256Hex s' rawBody) =
         strBytes ("sha256=" ++ hmacSha256Hex s rawBody)) :
    hmacSha256Hex s' rawBody = hmacSha256Hex s rawBody := by
  rw [strBytes_append, strBytes_append] at h
  have h2 := List.append_cancel_left h
  rw [strBytes_ascii _ (hmacSha256Hex_ascii s' rawBody),
      strBytes_ascii _ (hmacSha256Hex_ascii s rawBody)] at h2
  exact String.ext (map_toNat_inj _ _ h2)

/-! Claim theorems on the signature verifier. -/

/-- Claim C1: For every payload `P` and secret `S`, `verifyWebhookSignature`
accepts the header `sha256=` ++ (lowercase hex HMAC-SHA256 of `P` under `S`),
and rejects the header built the same way from any secret `S'` whose digest
of `P` differs from that of `S`. -/
theorem C1_verify_accepts_own_hmac_rejects_other (P : List Nat) (S S' : String)
    (hd : hmacSha256Hex S' P ≠ hmacSha256Hex S P) :
    verifyWebhookSignature P ("sha256=" ++ hmacSha256Hex S P) S = true ∧
    verifyWebhookSignature P ("sha256=" ++ hmacSha256Hex S' P) S = false := by
  constructor
  · rw [verify_eq_decide]
    simp
  · rw [verify_eq_decide]
    apply decide_eq_false
    intro heq
    exact hd (hmacHex_strBytes_inj P S S' heq)

set_option maxRecDepth 100000 in
/-- Witness for claim C1 at `P = []`, `S = "a"`, `S' = "b"`. -/
theorem C1_verify_accepts_own_hmac_rejects_other_witness :
    verifyWebhookSignature [] ("sha256=" ++ hmacSha256Hex "a" []) "a" = true ∧
    verifyWebhookSignature [] ("sha256=" ++ hmacSha256Hex "b" []) "a" = false :=
  C1_verify_accepts_own_hmac_rejects_other [] "a" "b" (by decide)

/-- Claim C8: The comparison `verifyWebhookSignature` performs is constant time
in the model's cost measure: the byte-comparison count depends only on the
two buffers' lengths (never on where they first differ), and on the header /
expected-digest pair of equal length it examines every byte. -/
theorem C8_comparison_constant_time (a b a' b' rawBody : List Nat) (hdr s : String)
    (h1 : a.length = a'.length) (h2 : b.length = b'.length)
    (h3 : (strBytes hdr).length =
          (strBytes ("sha256=" ++ hmacSha256Hex s rawBody)).length) :
    ctCost a b = ctCost a' b' ∧
    ctCost (strBytes hdr) (strBytes ("sha256=" ++ hmacSha256Hex s rawBody)) =
      (strBytes hdr).length := by
  constructor
  · unfold ctCost
    rw [ctEqAux_snd, ctEqAux_snd, h1, h2]
  · unfold ctCost
    rw [ctEqAux_snd, h3, Nat.min_self]

/-- Witness for claim C8: two equal-length pairs with different contents, and a
header that is exactly the expected digest string. -/
theorem C8_comparison_constant_time_witness :
    ctCost [0] [1] = ctCost [2] [3] ∧
    ctCost (strBytes ("sha256=" ++ hmacSha256Hex "k" []))
        (strBytes ("sha256=" ++ hmacSha256Hex "k" [])) =
      (strBytes ("sha256=" ++ hmacSha256Hex "k" [])).length :=
  C8_comparison_constant_time [0] [1] [2] [3] [] ("sha256=" ++ hmacSha256Hex "k" []) "k"
    rfl rfl rfl

/-- Claim C9: `verifyWebhookSignature` is total: the guarded body never lets
`crypto.timingSafeEqual`'s unequal-length exception escape (it always returns
`.ok`), and a header whose byte length differs from the expected digest
string's is rejected as `false` by the length guard itself. -/
theorem C9_verify_total_no_exception (rawBody : List Nat) (hdr s : String) :
    (∃ v, verifyWebhookSignatureBody rawBody hdr s = .ok v ∧
          verifyWebhookSignature rawBody hdr s = v) ∧
    ((strBytes hdr).length ≠
        (strBytes ("sha256=" ++ hmacSha256Hex s rawBody)).length →
      verifyWebhookSignatureBody rawBody hdr s = .ok false ∧
      verifyWebhookSignature rawBody hdr s = false) := by
  by_cases hlen :
      (strBytes hdr).length = (strBytes ("sha256=" ++ hmacSha256Hex s rawBody)).length
  · constructor
    · refine ⟨decide (strBytes hdr = strBytes ("sha256=" ++ hmacSha256Hex s rawBody)), ?_, ?_⟩
      · show verifyWebhookSignatureBody _ _ _ = _
        unfold verifyWebhookSignatureBody
        rw [if_neg (by simp [hlen]), timingSafeEqual_eq _ _ hlen]
      · rw [verify_eq_decide]
    · intro hc
      exact absurd hlen hc
  · have hbody : verifyWebhookSignatureBody rawBody hdr s = .ok false := by
      unfold verifyWebhookSignatureBody
      rw [if_pos (by simpa using hlen)]
    constructor
    · refine ⟨false, hbody, ?_⟩
      unfold verifyWebhookSignature
      rw [hbody]
    · intro _
      refine ⟨hbody, ?_⟩
      unfold verifyWebhookSignature
      rw [hbody]

set_option maxRecDepth 100000 in
/-- Witness for claim C9 at a header (`"x"`) one byte long, shorter than any
`sha256=`-prefixed digest string. -/
theorem C9_verify_total_no_exception_witness :
    (∃ v, verifyWebhookSignatureBody [] "x" "k" = .ok v ∧
          verifyWebhookSignature [] "x" "k" = v) ∧
    (verifyWebhookSignatureBody [] "x" "k" = .ok false ∧
     verifyWebhookSignature [] "x" "k" = false) :=
  ⟨(C9_verify_total_no_exception [] "x" "k").1,
   (C9_verify_total_no_exception [] "x" "k").2 (by decide)⟩

/-! Lemmas on the route handler traces. -/

theorem processBody_malformed (p : List Nat → Option ParsedPayload) (body : List Nat)
    (behavior : HandlerBehavior) (hm : malformedBody p body = true) :
    processBody p body behavior = [.respond 400] := by
  unfold processBody
  unfold malformedBody eventTruthy at hm
  cases hp : p body with
  | none => rfl
  | some payload =>
      rw [hp] at hm
      dsimp only at hm ⊢
      cases hev : payload.event with
      | none => rfl
      | some ev =>
          rw [hev] at hm
          dsimp only at hm ⊢
          cases ht : ev.type with
          | none => rfl
          | some t =>
              rw [ht] at hm
              dsimp only at hm ⊢
              simp only [Bool.not_not] at hm
              rw [hm]
              rfl

theorem processBody_ok (p : List Nat → Option ParsedPayload) (body : List Nat)
    (behavior : HandlerBehavior) (payload : ParsedPayload) (ev : ParsedEvent)
    (t : String) (hp : p body = some payload) (hev : payload.event = some ev)
    (ht : ev.type = some t) (hte : (t == "") = false) :
    processBody p body behavior =
      .respond 200 :: (dispatchEvent behavior t ev.id).1 ++
        (match (dispatchEvent behavior t ev.id).2 with
         | some _ => [.logHandlerError t]
         | none => []) := by
  unfold processBody
  rw [hp]
  dsimp only
  rw [hev]
  dsimp only
  rw [ht]
  dsimp only
  rw [hte]
  rfl

theorem malformedBody_false_intro (p : List Nat → Option ParsedPayload) (body : List Nat)
    (payload : ParsedPayload) (ev : ParsedEvent) (t : String)
    (hp : p body = some payload) (hev : payload.event = some ev)
    (ht : ev.type = some t) (hte : (t == "") = false) :
    malformedBody p body = false := by
  unfold malformedBody eventTruthy
  rw [hp]
  dsimp only
  rw [hev]
  dsimp only
  rw [ht]
  dsimp only
  rw [hte]
  rfl

theorem malformedBody_false_elim (p : List Nat → Option ParsedPayload) (body : List Nat)
    (hm : malformedBody p body = false) :
    ∃ payload ev t, p body = some payload ∧ payload.event = some ev ∧
      ev.type = some t ∧ (t == "") = false := by
  unfold malformedBody eventTruthy at hm
  cases hp : p body with
  | none => rw [hp] at hm; simp at hm
  | some payload =>
      rw [hp] at hm
      dsimp only at hm
      cases hev : payload.event with
      | none => rw [hev] at hm; simp at hm
      | some ev =>
          rw [hev] at hm
          dsimp only at hm
          cases ht : ev.type with
          | none => rw [ht] at hm; simp at hm
          | some t =>
              rw [ht] at hm
              dsimp only at hm
              simp only [Bool.not_not] at hm
              exact ⟨payload, ev, t, rfl, hev, ht, hm⟩

theorem respondsOf_processBody (p : List Nat → Option ParsedPayload) (body : List Nat)
    (behavior : HandlerBehavior) :
    respondsOf (processBody p body behavior) =
      [if malformedBody p body then 400 else 200] := by
  cases hm : malformedBody p body with
  | true => rw [processBody_malformed p body behavior hm]; rfl
  | false =>
      obtain ⟨payload, ev, t, hp, hev, ht, hte⟩ := malformedBody_false_elim p body hm
      rw [processBody_ok p body behavior payload ev t hp hev ht hte]
      unfold dispatchEvent
      cases hf : handlerFor t with
      | none => simp [respondsOf, hf]
      | some hh => cases hb : behavior hh <;> simp [respondsOf, hf, hb]

theorem handlerRunsOf_processBody_malformed (p : List Nat → Option ParsedPayload)
    (body : List Nat) (behavior : HandlerBehavior) (hm : malformedBody p body = true) :
    handlerRunsOf (processBody p body behavior) = [] := by
  rw [processBody_malformed p body behavior hm]
  rfl

theorem processBody_get?_handlerRun (p : List Nat → Option ParsedPayload)
    (body : List Nat) (behavior : HandlerBehavior) (j : Nat) (hh : Handler)
    (hj : (processBody p body behavior).get? j = some (.handlerRun hh)) :
    (processBody p body behavior).get? 0 = some (.respond 200) ∧ 0 < j := by
  cases hm : malformedBody p body with
  | true =>
      rw [processBody_malformed p body behavior hm] at hj
      rcases j with _ | j <;> simp at hj
  | false =>
      obtain ⟨payload, ev, t, hp, hev, ht, hte⟩ := malformedBody_false_elim p body hm
      rw [processBody_ok p body behavior payload ev t hp hev ht hte] at hj ⊢
      refine ⟨rfl, ?_⟩
      rcases j with _ | j
      · simp at hj
      · omega

theorem router_gate_pass (secret? : Option String) (body : List Nat)
    (sig? : Option String) (p : List Nat → Option ParsedPayload)
    (h : sigCheckFails secret? body sig? = false) :
    (∀ behavior, fusionAuthWebhookRouter secret? body sig? p behavior =
        processBody p body behavior) ∨
    ∃ sig, sig? = some sig ∧ ∀ behavior,
      fusionAuthWebhookRouter secret? body sig? p behavior =
        .compareSig sig :: processBody p body behavior := by
  unfold fusionAuthWebhookRouter
  cases secret? with
  | none => exact Or.inl fun _ => rfl
  | some ws =>
      dsimp only
      cases hws : ws == "" with
      | true => exact Or.inl fun _ => by simp
      | false =>
          simp only [Bool.false_eq_true, if_false]
          cases sig? with
          | none =>
              exfalso
              simp [sigCheckFails, hws] at h
          | some sig =>
              dsimp only
              cases hsig : sig == "" with
              | true =>
                  exfalso
                  simp [sigCheckFails, hws, hsig] at h
              | false =>
                  have hv : verifyWebhookSignature body sig ws = true := by
                    simp [sigCheckFails, hws, hsig] at h
                    exact h
                  refine Or.inr ⟨sig, rfl, fun behavior => ?_⟩
                  simp [hv]

theorem router_gate_fail (secret? : Option String) (body : List Nat)
    (sig? : Option String) (p : List Nat → Option ParsedPayload)
    (h : sigCheckFails secret? body sig? = true) :
    (∀ behavior, fusionAuthWebhookRouter secret? body sig? p behavior =
        [.logWarn "Webhook received without signature header", .respond 401]) ∨
    ∃ sig, ∀ behavior, fusionAuthWebhookRouter secret? body sig? p behavior =
        [.compareSig sig, .logWarn "Webhook signature verification failed",
         .respond 401] := by
  unfold fusionAuthWebhookRouter
  cases secret? with
  | none => exact absurd h (by simp [sigCheckFails])
  | some ws =>
      dsimp only
      cases hws : ws == "" with
      | true => exact absurd h (by simp [sigCheckFails, hws])
      | false =>
          simp only [Bool.false_eq_true, if_false]
          cases sig? with
          | none => exact Or.inl fun _ => rfl
          | some sig =>
              dsimp only
              cases hsig : sig == "" with
              | true => exact Or.inl fun _ => by simp
              | false =>
                  have hv : verifyWebhookSignature body sig ws = false := by
                    simp [sigCheckFails, hws, hsig] at h
                    exact h
                  refine Or.inr ⟨sig, fun behavior => ?_⟩
                  simp [hv]

/-! Claim theorems on the route handler. -/

/-- Claim C2, counterexample: With no secret configured, a request carrying no
signature header at all is fully processed: the trace is exactly
`respond 200` then the create handler — no rejection and no warning log.
The receiver fails open on the missing-secret misconfiguration rather than
failing closed. -/
theorem C2_counterexample_fails_open :
    fusionAuthWebhookRouter none [] none
      (fun _ => some { event := some { type := some "user.create", id := "e1" } })
      (fun _ => .ok ()) =
      [.respond 200, .handlerRun .onUserCreate] := rfl

/-- Claim C2, amended: When the configured secret is absent — or empty, which
JS truthiness treats the same — the router is *identical* to the
unauthenticated body-processing pipeline: signature verification is silently
bypassed for every request, with no runtime warning. -/
theorem C2_amended_bypass_when_secret_unset (body : List Nat) (sig? : Option String)
    (parseJson : List Nat → Option ParsedPayload) (behavior : HandlerBehavior) :
    fusionAuthWebhookRouter none body sig? parseJson behavior =
      processBody parseJson body behavior ∧
    fusionAuthWebhookRouter (some "") body sig? parseJson behavior =
      processBody parseJson body behavior := by
  constructor
  · rfl
  · unfold fusionAuthWebhookRouter
    simp

/-- Claim C3, counterexample: A request with no signature header is *not*
always rejected: with no secret configured it is accepted end to end (200,
removal handler invoked). -/
theorem C3_counterexample_missing_header_accepted :
    fusionAuthWebhookRouter none [1] none
      (fun _ => some { event := some { type := some "user.delete", id := "e2" } })
      (fun _ => .ok ()) =
      [.respond 200, .handlerRun .onUserDelete] := rfl

/-- Claim C3, amended: When a non-empty secret is configured, a request whose
signature header is absent produces exactly a warning log and HTTP 401:
no HMAC comparison is performed (no `compareSig` action) and no handler
runs. -/
theorem C3_amended_missing_header_rejected (ws : String) (body : List Nat)
    (parseJson : List Nat → Option ParsedPayload) (behavior : HandlerBehavior)
    (hws : (ws == "") = false) :
    fusionAuthWebhookRouter (some ws) body none parseJson behavior =
      [.logWarn "Webhook received without signature header", .respond 401] := by
  unfold fusionAuthWebhookRouter
  simp [hws]

/-- Witness for the amended claim C3 with secret `"k"`. -/
theorem C3_amended_missing_header_rejected_witness :
    fusionAuthWebhookRouter (some "k") [] none (fun _ => none) (fun _ => .ok ()) =
      [.logWarn "Webhook received without signature header", .respond 401] :=
  C3_amended_missing_header_rejected "k" [] (fun _ => none) (fun _ => .ok ()) (by decide)

/-- Claim C4: Every POST gets exactly one response, whose status follows the
contract — 401 when the signature gate rejects, else 400 when the body is
unparsable or its discriminator fails the truthiness check, else 200 — and
on 401/400 no handler is invoked. -/
theorem C4_response_contract (secret? : Option String) (body : List Nat)
    (sig? : Option String) (parseJson : List Nat → Option ParsedPayload)
    (behavior : HandlerBehavior) :
    respondsOf (fusionAuthWebhookRouter secret? body sig? parseJson behavior) =
      [expectedStatus secret? body sig? parseJson] ∧
    (expectedStatus secret? body sig? parseJson ≠ 200 →
      handlerRunsOf (fusionAuthWebhookRouter secret? body sig? parseJson behavior) =
        []) := by
  cases hsf : sigCheckFails secret? body sig? with
  | true =>
      have hst : expectedStatus secret? body sig? parseJson = 401 := by
        simp [expectedStatus, hsf]
      rcases router_gate_fail secret? body sig? parseJson hsf with h | ⟨sig, h⟩ <;>
        rw [h behavior, hst] <;>
        exact ⟨rfl, fun _ => rfl⟩
  | false =>
      cases hm : malformedBody parseJson body with
      | true =>
          have hst : expectedStatus secret? body sig? parseJson = 400 := by
            simp [expectedStatus, hsf, hm]
          rcases router_gate_pass secret? body sig? parseJson hsf with h | ⟨sig, _, h⟩ <;>
            rw [h behavior, hst, processBody_malformed parseJson body behavior hm] <;>
            exact ⟨rfl, fun _ => rfl⟩
      | false =>
          have hst : expectedStatus secret? body sig? parseJson = 200 := by
            simp [expectedStatus, hsf, hm]
          rcases router_gate_pass secret? body sig? parseJson hsf with h | ⟨sig, _, h⟩ <;>
            rw [h behavior, hst]
          · refine ⟨?_, fun hne => absurd rfl hne⟩
            rw [respondsOf_processBody]
            simp [hm]
          · refine ⟨?_, fun hne => absurd rfl hne⟩
            show respondsOf (processBody parseJson body behavior) = [200]
            rw [respondsOf_processBody]
            simp [hm]

/-- Witness for claim C4 at a request rejected by the signature gate (secret
configured, header missing). -/
theorem C4_response_contract_witness :
    respondsOf (fusionAuthWebhookRouter (some "k") [] none (fun _ => none)
        (fun _ => .ok ())) =
      [expectedStatus (some "k") [] none (fun _ => none)] ∧
    handlerRunsOf (fusionAuthWebhookRouter (some "k") [] none (fun _ => none)
        (fun _ => .ok ())) = [] :=
  ⟨(C4_response_contract (some "k") [] none (fun _ => none) (fun _ => .ok ())).1,
   (C4_response_contract (some "k") [] none (fun _ => none) (fun _ => .ok ())).2
     (by decide)⟩

/-- Claim C5: Whenever a handler starts executing (a `handlerRun` action at
position `j` of the trace), the 200 acknowledgement was already written at
an earlier position: the response is sent before the handler begins. -/
theorem C5_ack_sent_before_handler (secret? : Option String) (body : List Nat)
    (sig? : Option String) (parseJson : List Nat → Option ParsedPayload)
    (behavior : HandlerBehavior) (j : Nat) (hh : Handler)
    (hj : (fusionAuthWebhookRouter secret? body sig? parseJson behavior).get? j =
          some (.handlerRun hh)) :
    ∃ i, i < j ∧
      (fusionAuthWebhookRouter secret? body sig? parseJson behavior).get? i =
        some (.respond 200) := by
  cases hsf : sigCheckFails secret? body sig? with
  | true =>
      rcases router_gate_fail secret? body sig? parseJson hsf with h | ⟨sig, h⟩ <;>
        rw [h behavior] at hj
      · rcases j with _ | _ | j <;> simp at hj
      · rcases j with _ | _ | _ | j <;> simp at hj
  | false =>
      rcases router_gate_pass secret? body sig? parseJson hsf with h | ⟨sig, _, h⟩
      · rw [h behavior] at hj ⊢
        obtain ⟨h200, hpos⟩ := processBody_get?_handlerRun parseJson body behavior j hh hj
        exact ⟨0, hpos, h200⟩
      · rw [h behavior] at hj ⊢
        rcases j with _ | j
        · simp at hj
        · rw [List.get?_cons_succ] at hj
          obtain ⟨h200, hpos⟩ := processBody_get?_handlerRun parseJson body behavior j hh hj
          exact ⟨1, by omega, by rw [List.get?_cons_succ]; exact h200⟩

/-- Witness for claim C5: in a concrete accepted request the handler runs at
position 1 and the 200 response sits strictly before it. -/
theorem C5_ack_sent_before_handler_witness :
    ∃ i, i < 1 ∧
      (fusionAuthWebhookRouter none []
          (some "sha256=deadbeef")
          (fun _ => some { event := some { type := some "user.create", id := "e1" } })
          (fun _ => .ok ())).get? i = some (.respond 200) :=
  C5_ack_sent_before_handler none [] (some "sha256=deadbeef")
    (fun _ => some { event := some { type := some "user.create", id := "e1" } })
    (fun _ => .ok ()) 1 .onUserCreate rfl

/-- Claim C6: A handler that throws while processing an authenticated,
well-formed event is caught at the dispatch boundary: the trace still
responds exactly `[200]`, the handler did start, the failure is logged with
the event type, and the responses are identical to a run whose handler
succeeds — nothing is propagated to the sender. -/
theorem C6_handler_failure_contained (secret? : Option String) (body : List Nat)
    (sig? : Option String) (parseJson : List Nat → Option ParsedPayload)
    (behavior : HandlerBehavior) (payload : ParsedPayload) (ev : ParsedEvent)
    (t : String) (hh : Handler) (e : String)
    (hsf : sigCheckFails secret? body sig? = false)
    (hp : parseJson body = some payload) (hev : payload.event = some ev)
    (ht : ev.type = some t) (hte : (t == "") = false)
    (hf : handlerFor t = some hh) (hb : behavior hh = .error e) :
    respondsOf (fusionAuthWebhookRouter secret? body sig? parseJson behavior) =
      [200] ∧
    Action.handlerRun hh ∈ fusionAuthWebhookRouter secret? body sig? parseJson behavior ∧
    Action.logHandlerError t ∈
      fusionAuthWebhookRouter secret? body sig? parseJson behavior ∧
    respondsOf (fusionAuthWebhookRouter secret? body sig? parseJson behavior) =
      respondsOf (fusionAuthWebhookRouter secret? body sig? parseJson
        (fun _ => Except.ok ())) := by
  have hd : dispatchEvent behavior t ev.id = ([.handlerRun hh], some e) := by
    unfold dispatchEvent
    rw [hf]
    dsimp only
    rw [hb]
  have hpb : processBody parseJson body behavior =
      [.respond 200, .handlerRun hh, .logHandlerError t] := by
    rw [processBody_ok parseJson body behavior payload ev t hp hev ht hte, hd]
    rfl
  have hm : malformedBody parseJson body = false :=
    malformedBody_false_intro parseJson body payload ev t hp hev ht hte
  have hro : respondsOf (processBody parseJson body (fun _ => Except.ok ())) = [200] := by
    rw [respondsOf_processBody]
    simp [hm]
  rcases router_gate_pass secret? body sig? parseJson hsf with h | ⟨sig, _, h⟩
  · rw [h behavior, h (fun _ => Except.ok ()), hpb, hro]
    exact ⟨rfl, by simp, by simp, rfl⟩
  · rw [h behavior, h (fun _ => Except.ok ()), hpb]
    refine ⟨rfl, by simp, by simp, ?_⟩
    show _ = respondsOf (processBody parseJson body (fun _ => Except.ok ()))
    rw [hro]
    rfl

/-- Witness for claim C6: concrete accepted request whose handler throws. -/
theorem C6_handler_failure_contained_witness :
    respondsOf (fusionAuthWebhookRouter none [] none
        (fun _ => some { event := some { type := some "user.create", id := "e1" } })
        (fun _ => .error "boom")) = [200] ∧
    Action.handlerRun .onUserCreate ∈ fusionAuthWebhookRouter none [] none
        (fun _ => some { event := some { type := some "user.create", id := "e1" } })
        (fun _ => .error "boom") ∧
    Action.logHandlerError "user.create" ∈ fusionAuthWebhookRouter none [] none
        (fun _ => some { event := some { type := some "user.create", id := "e1" } })
        (fun _ => .error "boom") ∧
    respondsOf (fusionAuthWebhookRouter none [] none
        (fun _ => some { event := some { type := some "user.create", id := "e1" } })
        (fun _ => .error "boom")) =
      respondsOf (fusionAuthWebhookRouter none [] none
        (fun _ => some { event := some { type := some "user.create", id := "e1" } })
        (fun _ => Except.ok ())) :=
  C6_handler_failure_contained none [] none
    (fun _ => some { event := some { type := some "user.create", id := "e1" } })
    (fun _ => .error "boom")
    { event := some { type := some "user.create", id := "e1" } }
    { type := some "user.create", id := "e1" }
    "user.create" .onUserCreate "boom" rfl rfl rfl rfl rfl rfl rfl

/-- Claim C7: The dispatch switch: `user.create` reaches exactly the create
handler, `user.delete` and `user.deactivate` both alias to the removal
handler, an unrecognized discriminator reaches no registered handler and
raises no error (log-only fallback), and every event produces exactly one
invocation (registered handler or fallback log). -/
theorem C7_dispatch_routing (behavior : HandlerBehavior) (eid : String) :
    (dispatchEvent behavior "user.create" eid).1 = [.handlerRun .onUserCreate] ∧
    (dispatchEvent behavior "user.delete" eid).1 = [.handlerRun .onUserDelete] ∧
    (dispatchEvent behavior "user.deactivate" eid).1 = [.handlerRun .onUserDelete] ∧
    (dispatchEvent behavior "x.unknown" eid).1 = [.logUnhandled "x.unknown" eid] ∧
    (dispatchEvent behavior "x.unknown" eid).2 = none ∧
    ∀ t, (handlerRunsOf (dispatchEvent behavior t eid).1).length +
           unhandledCount (dispatchEvent behavior t eid).1 = 1 := by
  refine ⟨rfl, rfl, rfl, rfl, rfl, fun t => ?_⟩
  unfold dispatchEvent
  cases handlerFor t <;> simp [handlerRunsOf, unhandledCount]

/-- Claim C10: If the body parses but the `event` envelope fails the JS
truthiness test (`event` missing/null, `event.type` absent or the empty
string), the request gets HTTP 400 and nothing is dispatched — not even the
unknown-type fallback log. -/
theorem C10_falsy_discriminator_rejected (secret? : Option String) (body : List Nat)
    (sig? : Option String) (parseJson : List Nat → Option ParsedPayload)
    (behavior : HandlerBehavior) (payload : ParsedPayload)
    (hsf : sigCheckFails secret? body sig? = false)
    (hp : parseJson body = some payload)
    (hfalsy : eventTruthy payload.event = false) :
    respondsOf (fusionAuthWebhookRouter secret? body sig? parseJson behavior) =
      [400] ∧
    handlerRunsOf (fusionAuthWebhookRouter secret? body sig? parseJson behavior) =
      [] ∧
    unhandledCount (fusionAuthWebhookRouter secret? body sig? parseJson behavior) =
      0 := by
  have hm : malformedBody parseJson body = true := by
    unfold malformedBody
    rw [hp]
    dsimp only
    rw [hfalsy]
    rfl
  rcases router_gate_pass secret? body sig? parseJson hsf with h | ⟨sig, _, h⟩ <;>
    rw [h behavior, processBody_malformed parseJson body behavior hm] <;>
    exact ⟨rfl, rfl, rfl⟩

/-- Witness for claim C10: a parsed body whose event carries the empty-string
type. -/
theorem C10_falsy_discriminator_rejected_witness :
    respondsOf (fusionAuthWebhookRouter none [] none
        (fun _ => some { event := some { type := some "", id := "e1" } })
        (fun _ => .ok ())) = [400] ∧
    handlerRunsOf (fusionAuthWebhookRouter none [] none
        (fun _ => some { event := some { type := some "", id := "e1" } })
        (fun _ => .ok ())) = [] ∧
    unhandledCount (fusionAuthWebhookRouter none [] none
        (fun _ => some { event := some { type := some "", id := "e1" } })
        (fun _ => .ok ())) = 0 :=
  C10_falsy_discriminator_rejected none [] none
    (fun _ => some { event := some { type := some "", id := "e1" } })
    (fun _ => .ok ())
    { event := some { type := some "", id := "e1" } }
    rfl rfl rfl

end Webhook
